import Mathlib

/-!
Verification of the M0NARQ animation-orchestration scripts: a shallow
embedding of the scramble-text widget, the dynamic-island navigator, the
initialization sequence, the stats counter and the scroll-reveal batches,
with theorems settling the frozen behavioural claims.

Strings are modelled as `List Char` (`JSString`), so that character
indexing matches JavaScript's `s[i]`.  Timer-driven code is modelled as
explicit state machines: one transition per interval tick or timeout
firing.  `Math.random()` draws are supplied by oracle functions; a draw
used as `Math.floor(Math.random() * n)` is embedded as an oracle value
reduced `% n`, which is exactly the range the source expression takes.
-/

namespace M0narq

/-- JavaScript strings, as character lists so `s[i]` is positional. -/
abbrev JSString := List Char

/-- JavaScript `s[i]` appended to an accumulator: one character when `i`
is in range, the text `"undefined"` otherwise (JS `str += s[i]` coerces
the `undefined` value to that text). -/
def jsIndexConcat (s : JSString) (i : Nat) : JSString :=
  match s.get? i with
  | some c => [c]
  | none => "undefined".toList

/-! ## ScrambleText (v6.0 file, the class the claims cite)

```js
scramble(newText, duration = 0.8) {
  const oldText = this.element.textContent;
  const maxLength = Math.max(oldText.length, newText.length);
  const scrambleDuration = duration * 0.8;
  let frame = 0;
  const totalFrames = scrambleDuration * 60; // 60fps
  const scrambleInterval = setInterval(() => {
    frame++;
    const progress = frame / totalFrames;
    let scrambled = '';
    for (let i = 0; i < maxLength; i++) {
      if (i < newText.length * progress) scrambled += newText[i];
      else if (i < maxLength) scrambled += this.chars[floor(random()*len)];
    }
    this.element.textContent = scrambled.substring(0, maxLength);
    if (frame >= totalFrames) {
      clearInterval(scrambleInterval);
      this.element.textContent = newText;
    }
  }, 1000 / 60);
  return scrambleInterval;
}
```
-/

namespace ScrambleText

/-- `this.chars`, the fixed symbol alphabet of the scramble effect
(30 symbols; the braces are written as escapes). -/
def chars : JSString := "!#$%&'()*+,-./:;<=>?@[]^_`\x7b|\x7d~".toList

/-- The data a `scramble(newText, duration)` call fixes for its whole run:
`totalFrames = (duration * 0.8) * 60`. -/
structure Run where
  newText : JSString
  oldText : JSString
  totalFrames : ℚ
deriving Repr

/-- A `Run` as `scramble` computes it from its arguments. -/
def Run.ofDuration (newText oldText : JSString) (duration : ℚ) : Run :=
  { newText := newText, oldText := oldText,
    totalFrames := duration * (8 / 10) * 60 }

/-- `const maxLength = Math.max(oldText.length, newText.length)`. -/
def Run.maxLength (r : Run) : Nat :=
  max r.oldText.length r.newText.length

/-- The string one interval tick builds and writes (`scrambled.substring(0,
maxLength)`), at frame number `frame`; `rand i` is the `Math.random()` draw
used at loop index `i`, already reduced to an index below 30. -/
def scrambledAt (r : Run) (frame : Nat) (rand : Nat → Nat) : JSString :=
  (((List.range r.maxLength).map (fun (i : Nat) =>
      if (i : ℚ) < (r.newText.length : ℚ) * ((frame : ℚ) / r.totalFrames) then
        jsIndexConcat r.newText i
      else
        jsIndexConcat chars (rand i % 30))).flatten).take r.maxLength

/-- The per-run mutable state: the frame counter, the text node's content,
and whether the interval is still installed. -/
structure State where
  frame : Nat
  content : JSString
  active : Bool
deriving Repr, DecidableEq

/-- The node state right after `scramble` installs the interval. -/
def start (r : Run) : State :=
  { frame := 0, content := r.oldText, active := true }

/-- One firing of the interval callback.  A cleared interval fires no
more, so a tick of an inactive state is the identity. -/
def tick (r : Run) (rand : Nat → Nat → Nat) (s : State) : State :=
  if s.active then
    let f := s.frame + 1
    let scrambled := scrambledAt r f (rand f)
    if r.totalFrames ≤ (f : ℚ) then
      { frame := f, content := r.newText, active := false }
    else
      { frame := f, content := scrambled, active := true }
  else s

/-- The state after `n` interval firings of a fresh run. -/
def run (r : Run) (rand : Nat → Nat → Nat) : Nat → State
  | 0 => start r
  | n + 1 => tick r rand (run r rand n)

/-- The character a tick writes at position `i`, when the position is in
range on both branches (no `undefined` coercion). -/
def charAt (r : Run) (frame : Nat) (rand : Nat → Nat) (i : Nat) : Char :=
  if (i : ℚ) < (r.newText.length : ℚ) * ((frame : ℚ) / r.totalFrames) then
    r.newText.getD i '?'
  else
    chars.getD (rand i % 30) '?'

/-- The concrete run used to instantiate the completion theorem: scramble
to `"HOME"` over a node reading `"ABOUT"`, at the default 0.8 s duration. -/
def demoRun : Run := Run.ofDuration "HOME".toList "ABOUT".toList (8 / 10)

/-- A fixed random oracle (every draw picks symbol 0 of the alphabet). -/
def demoRand : Nat → Nat → Nat := fun _ _ => 0

/-- The run refuting the spec's `i / max(oldLength, newLength)` threshold:
`updateText`'s 0.6 s call, old text 10 characters, new text 2. -/
def cexRun : Run := Run.ofDuration "AB".toList "ABCDEFGHIJ".toList (6 / 10)

/-- The single-tick oracle of the refutation (always symbol 0, `'!'`). -/
def cexRand : Nat → Nat := fun _ => 0

end ScrambleText

/-! ## DynamicIslandNav: the `updateText` timer bookkeeping (v6.0)

```js
updateText(newText) {
  if (this.state.isAnimating || !this.textElement) return;
  this.state.isAnimating = true;
  if (this.state.scrambleInterval) clearInterval(this.state.scrambleInterval);
  if (this.state.morphTimeout) clearTimeout(this.state.morphTimeout);
  this.state.scrambleInterval = this.scrambler.scramble(newText.toUpperCase(), 0.6);
  setTimeout(() => {
    this.state.isAnimating = false;
    if (!this.state.isExpanded) this.startIdleAnimation();
  }, 600);
}
```

The machine tracks the set of interval timers that are actually
installed (`liveIntervals`, identified by the order `setInterval` handed
them out) next to the one handle the state object stores, so "at most
one interval is live" is a provable invariant rather than an assumption.
-/

namespace DynamicIslandNav

/-- JavaScript `toUpperCase` over the model strings. -/
def toUpper (s : JSString) : JSString := s.map Char.toUpper

/-- The navigator state fields the `updateText`/scramble path touches,
plus the live-interval bookkeeping. -/
structure UTextState where
  isAnimating : Bool
  scrambleInterval : Option Nat
  morphPending : Bool
  liveIntervals : List Nat
  nextId : Nat
  runTarget : Option JSString
  content : JSString
deriving Repr, DecidableEq

/-- The state right after `init` (idle scheduler armed, no run). -/
def mkUText (content : JSString) : UTextState :=
  { isAnimating := false, scrambleInterval := none, morphPending := true,
    liveIntervals := [], nextId := 0, runTarget := none, content := content }

/-- One `updateText(newText)` call. -/
def updateText (t : JSString) (s : UTextState) : UTextState :=
  if s.isAnimating then s
  else
    let live1 := match s.scrambleInterval with
      | some id => s.liveIntervals.erase id
      | none => s.liveIntervals
    { isAnimating := true
      scrambleInterval := some s.nextId
      morphPending := false
      liveIntervals := live1 ++ [s.nextId]
      nextId := s.nextId + 1
      runTarget := some (toUpper t)
      content := s.content }

/-- The live scramble interval reaching its final frame: it writes the
target and clears itself (`clearInterval(scrambleInterval)` inside the
tick callback). -/
def scrambleFinish (s : UTextState) : UTextState :=
  match s.scrambleInterval, s.runTarget with
  | some id, some t =>
      if id ∈ s.liveIntervals then
        { s with content := t, liveIntervals := s.liveIntervals.erase id }
      else s
  | _, _ => s

/-- The 600 ms timeout scheduled by `updateText`: drops the guard and
(island collapsed, as in the claims' scenario) re-arms the idle
scheduler. -/
def animDone (s : UTextState) : UTextState :=
  { s with isAnimating := false, morphPending := true }

/-- The events that drive the `updateText` machinery. -/
inductive UTextEvent where
  | update (t : JSString)
  | finish
  | animDone
deriving Repr, DecidableEq

/-- One event applied to the state. -/
def stepUText (s : UTextState) : UTextEvent → UTextState
  | .update t => updateText t s
  | .finish => scrambleFinish s
  | .animDone => animDone s

/-- A whole event sequence. -/
def runUText (es : List UTextEvent) (s : UTextState) : UTextState :=
  es.foldl stepUText s

/-- At most one interval timer is live, and the live one (if any) is the
handle the state stores. -/
def UTextInv (s : UTextState) : Prop :=
  s.liveIntervals.length ≤ 1 ∧
    ∀ id ∈ s.liveIntervals, s.scrambleInterval = some id

/-! ## DynamicIslandNav: navigation requests and the visibility observer

```js
navigateToSection(index) {
  if (this.state.isAnimating) return;
  const clampedIndex = Math.max(0, Math.min(this.sections.length - 1, index));
  if (clampedIndex === this.state.currentIndex) return;
  ... scrollTo(this.sections[clampedIndex]) ...   // no state write
}
updateCurrentSection(index) {          // observer-confirmed arrival only
  this.state.currentIndex = index;
  const section = this.sections[index];
  if (!section) return;
  this.updateText(section.dataset.navTitle);
  ... active classes, updateProgress() ...
}
```
-/

/-- The navigator state fields the navigation/observer path owns (the
`active`-class holder and the progress-bar width are the DOM pieces the
claims call "active flags" and "progress state"). -/
structure NavState where
  currentIndex : Nat
  isAnimating : Bool
  activeSection : Option Nat
  progressPct : ℚ
  sectionCount : Nat
deriving Repr

/-- `navigateToSection(index)` (v6.0): the returned pair is the state
after the call and the scroll request it issues, if any. -/
def navigateToSection (s : NavState) (index : ℤ) : NavState × Option ℤ :=
  if s.isAnimating then (s, none)
  else
    let clampedIndex : ℤ := max 0 (min ((s.sectionCount : ℤ) - 1) index)
    if clampedIndex = (s.currentIndex : ℤ) then (s, none)
    else (s, some clampedIndex)

/-- `go(i)` (v4.0 file): same guard, same clamp, scroll request only. -/
def go (s : NavState) (i : ℤ) : NavState × Option ℤ :=
  if s.isAnimating then (s, none)
  else
    let clampedIndex : ℤ := max 0 (min ((s.sectionCount : ℤ) - 1) i)
    if clampedIndex = (s.currentIndex : ℤ) then (s, none)
    else (s, some clampedIndex)

/-- The effect of `updateText` on the fields of `NavState` (the
`isAnimating` guard). -/
def updateTextFlag (s : NavState) : NavState :=
  if s.isAnimating then s else { s with isAnimating := true }

/-- `updateCurrentSection(index)`: sets the index first; a missing
section returns early, otherwise label, active classes and progress
follow. -/
def updateCurrentSection (s : NavState) (index : Nat) : NavState :=
  let s1 := { s with currentIndex := index }
  if index < s.sectionCount then
    { updateTextFlag s1 with
      activeSection := some index,
      progressPct := ((index : ℚ) + 1) / (s.sectionCount : ℚ) * 100 }
  else s1

/-- The intersection-observer callback for a report that fired with
`isIntersecting` on the section with parsed index `k`. -/
def observerFire (s : NavState) (k : Nat) : NavState :=
  if k ≠ s.currentIndex then updateCurrentSection s k else s

/-- The events of the navigation machine. -/
inductive NavEvent where
  | navigate (i : ℤ)
  | observe (k : Nat)
  | animDone
deriving Repr

/-- One event applied to the state. -/
def stepNav (s : NavState) : NavEvent → NavState
  | .navigate i => (navigateToSection s i).1
  | .observe k => observerFire s k
  | .animDone => { s with isAnimating := false }

/-- A whole event sequence. -/
def runNav (es : List NavEvent) (s : NavState) : NavState :=
  es.foldl stepNav s

/-- The most recently confirmed observer report of an event sequence. -/
def lastObserved (es : List NavEvent) : Option Nat :=
  es.foldl (fun acc e => match e with | .observe k => some k | _ => acc) none

/-- A concrete three-section navigator resting on its first section. -/
def navDemo : NavState :=
  { currentIndex := 0, isAnimating := false, activeSection := some 0,
    progressPct := 100 / 3, sectionCount := 3 }

/-! ## DynamicIslandNav: idle-glitch scheduling (v6.0)

```js
startIdleAnimation() {
  if (this.state.morphTimeout) clearTimeout(this.state.morphTimeout);
  if (!this.state.isExpanded && !this.state.isMenuOpen) {
    this.state.morphTimeout = setTimeout(() => {
      if (!this.state.isExpanded && !this.state.isMenuOpen) {
        this.glitchText();
        this.startIdleAnimation();
      }
    }, 3000 + Math.random() * 2000);
  }
}
```
`toggleExpanded(true)` clears `morphTimeout`; `toggleExpanded(false)`
calls `startIdleAnimation()`; `toggleMenu` touches neither. -/

/-- The navigator state fields the idle-glitch scheduler reads and
writes: the two mode flags, whether a glitch timeout is pending and with
what delay, and the 5 s auto-collapse timer of `resetIdleTimer`. -/
structure IdleState where
  isExpanded : Bool
  isMenuOpen : Bool
  morphPending : Bool
  morphDelayMs : ℚ
  idlePending : Bool
deriving Repr

/-- `startIdleAnimation()`; `rnd` is the `Math.random()` draw. -/
def startIdleAnimation (rnd : ℚ) (s : IdleState) : IdleState :=
  let s1 := { s with morphPending := false }
  if !s1.isExpanded && !s1.isMenuOpen then
    { s1 with morphPending := true, morphDelayMs := 3000 + rnd * 2000 }
  else s1

/-- The pending glitch timeout firing: the callback re-checks both flags
before glitching and re-arming; the returned flag says whether the
glitch actually executed. -/
def morphFire (rnd : ℚ) (s : IdleState) : IdleState × Bool :=
  if s.morphPending then
    let s1 := { s with morphPending := false }
    if !s1.isExpanded && !s1.isMenuOpen then
      (startIdleAnimation rnd s1, true)
    else (s1, false)
  else (s, false)

/-- `resetIdleTimer()`: clears the auto-collapse timer and re-arms it
only while expanded. -/
def resetIdleTimer (s : IdleState) : IdleState :=
  if s.isExpanded then { s with idlePending := true }
  else { s with idlePending := false }

/-- `toggleExpanded(shouldExpand)`, timer bookkeeping only. -/
def toggleExpanded (shouldExpand : Bool) (rnd : ℚ) (s : IdleState) :
    IdleState :=
  let s1 := { s with isExpanded := shouldExpand }
  if shouldExpand then
    { resetIdleTimer s1 with morphPending := false }
  else
    startIdleAnimation rnd { s1 with idlePending := false }

/-- `toggleMenu(force)` (v6.0): flips the flag and animates the panel;
it touches no timer. -/
def toggleMenu (force : Option Bool) (s : IdleState) : IdleState :=
  let shouldOpen := force.getD (!s.isMenuOpen)
  { s with isMenuOpen := shouldOpen }

/-- A collapsed, menu-closed island with the idle scheduler armed. -/
def idleDemo : IdleState :=
  { isExpanded := false, isMenuOpen := false, morphPending := true,
    morphDelayMs := 4000, idlePending := false }

end DynamicIslandNav

/-! ## M0NARQAnimations initialization (v6.0 `init` and the v5.0 draft)

v6.0 wraps the whole sequence in `try/catch`; its `validateDependencies`
only warns.  The v5.0 draft (`src/js/animations.js`) has no `try/catch`
and its `validateDependencies` throws on a missing global; `removeLoader`
has already marked the document loaded and forced it visible by then. -/

namespace M0NARQAnimations

/-- Which of the three third-party globals exist at boot. -/
structure Deps where
  gsap : Bool
  scrollTrigger : Bool
  lenis : Bool
deriving Repr, DecidableEq

/-- The document bits the initialization claims concern. -/
structure DocState where
  htmlLoaded : Bool
  bodyLoaded : Bool
  forcedVisible : Bool
deriving Repr, DecidableEq

/-- The document before any script ran. -/
def docBoot : DocState :=
  { htmlLoaded := false, bodyLoaded := false, forcedVisible := false }

/-- The exceptions the modelled steps can raise. -/
inductive JsError where
  | referenceError
  | missingDeps
deriving Repr, DecidableEq

/-- A fallible init step: on a throw the document state at that moment
rides along with the error. -/
abbrev InitStep := Except (JsError × DocState) DocState

/-- v6.0 `removeLoaderAnimated`: both branches (animated and instant)
end by adding the `loaded` classes; it never throws. -/
def removeLoaderAnimated (doc : DocState) : DocState :=
  { doc with htmlLoaded := true, bodyLoaded := true }

/-- v6.0 `initGSAP`: early-returns without gsap; with gsap present but
the ScrollTrigger global missing, the bare `ScrollTrigger` references
raise a `ReferenceError`. -/
def initGSAP (d : Deps) (doc : DocState) : InitStep :=
  if !d.gsap then .ok doc
  else if !d.scrollTrigger then .error (.referenceError, doc)
  else .ok doc

/-- v6.0 `initScrollSystem`: guarded by `typeof Lenis` and
`typeof ScrollTrigger` checks; never throws, no document writes. -/
def initScrollSystem (_ : Deps) (doc : DocState) : InitStep := .ok doc

/-- v6.0 `preloadCriticalImages`: internally try/caught, always
resolves. -/
def preloadCriticalImages (doc : DocState) : InitStep := .ok doc

/-- v6.0 `initDynamicIsland`: internally try/caught. -/
def initDynamicIsland (doc : DocState) : InitStep := .ok doc

/-- v6.0 `initNavigation` plus the critical/deferred animation and
resize registrations: every library use sits behind a `typeof` guard. -/
def initRemainingV6 (_ : Deps) (doc : DocState) : InitStep := .ok doc

/-- The body of the v6.0 `init` `try` block, in source order
(`validateDependencies` only warns, so it is the identity here). -/
def initV6body (d : Deps) (doc0 : DocState) : InitStep := do
  let doc1 := removeLoaderAnimated doc0
  let doc2 ← initGSAP d doc1
  let doc3 ← initScrollSystem d doc2
  let doc4 ← preloadCriticalImages doc3
  let doc5 ← initDynamicIsland doc4
  initRemainingV6 d doc5

/-- v6.0 `init`: the `catch` adds the body `loaded` class and forces the
body visible; the boolean is whether an exception escaped (never). -/
def initV6 (d : Deps) (doc0 : DocState) : DocState × Bool :=
  match initV6body d doc0 with
  | .ok doc => (doc, false)
  | .error (_, doc) =>
      ({ doc with bodyLoaded := true, forcedVisible := true }, false)

/-- v5.0 `removeLoader`: adds the `loaded` class to the document element
and sets `body.style.cssText = 'opacity: 1; visibility: visible;'`. -/
def removeLoaderV5 (doc : DocState) : DocState :=
  { doc with htmlLoaded := true, forcedVisible := true }

/-- v5.0 `validateDependencies`: throws when any of the three globals is
missing. -/
def validateDependenciesV5 (d : Deps) (doc : DocState) : InitStep :=
  if d.gsap && d.scrollTrigger && d.lenis then .ok doc
  else .error (.missingDeps, doc)

/-- v5.0 `initGSAP`: unguarded `gsap.registerPlugin(ScrollTrigger)`. -/
def initGSAPv5 (d : Deps) (doc : DocState) : InitStep :=
  if d.gsap && d.scrollTrigger then .ok doc
  else .error (.referenceError, doc)

/-- v5.0 `initScrollSystem`: unguarded `new Lenis(...)`. -/
def initScrollSystemV5 (d : Deps) (doc : DocState) : InitStep :=
  if d.lenis then .ok doc else .error (.referenceError, doc)

/-- The v5.0 `init` body; the remaining steps are reachable only with
every dependency present and raise nothing then. -/
def initV5body (d : Deps) (doc0 : DocState) : InitStep := do
  let doc1 := removeLoaderV5 doc0
  let doc2 ← validateDependenciesV5 d doc1
  let doc3 ← initGSAPv5 d doc2
  initScrollSystemV5 d doc3

/-- v5.0 `init`: no catch — the boolean records an uncaught exception
(the constructor's `this.init()` promise rejects unhandled). -/
def initV5 (d : Deps) (doc0 : DocState) : DocState × Bool :=
  match initV5body d doc0 with
  | .ok doc => (doc, false)
  | .error (_, doc) => (doc, true)

/-! ## `initStatsCounters` final formatting

```js
const target = parseFloat(el.dataset.counter);
if (isNaN(target)) return;
const hasDecimals = el.dataset.counter.includes('.');
const decimals = hasDecimals ? el.dataset.counter.split('.')[1].length : 0;
... gsap.to(obj, { value: target, duration: 2, ease: 'power2.out',
  onUpdate: () => {
    const formatted = obj.value.toLocaleString('en-US', {
      minimumFractionDigits: decimals, maximumFractionDigits: decimals });
    el.textContent = formatted + (el.dataset.suffix || '');
  } });
```
The tween's last update is at `obj.value === target` exactly; targets
are modelled as plain nonnegative decimal numerals (scaled to an integer
so the value is exact, as it is for such JS doubles of this size). -/

/-- The numeric value of a nonempty all-digit string. -/
def digitsToNat (ds : JSString) : Option Nat :=
  if ds.isEmpty then none
  else if ds.all Char.isDigit then
    some (ds.foldl (fun acc c => acc * 10 + (c.toNat - '0'.toNat)) 0)
  else none

/-- The part of the attribute before the decimal point. -/
def intDigits (attr : JSString) : JSString := attr.takeWhile (· ≠ '.')

/-- `attr.split('.')[1]`: the part between the first dot and the next. -/
def fracDigits (attr : JSString) : JSString :=
  ((attr.dropWhile (· ≠ '.')).drop 1).takeWhile (· ≠ '.')

/-- `el.dataset.counter.includes('.')`. -/
def hasDecimals (attr : JSString) : Bool := attr.contains '.'

/-- `decimals` as `initStatsCounters` computes it. -/
def decimalsOf (attr : JSString) : Nat :=
  if hasDecimals attr then (fracDigits attr).length else 0

/-- `parseFloat` on a plain nonnegative decimal numeral, scaled by
`10 ^ decimals` so the value is exact; `none` models `NaN` (the element
is skipped). -/
def parseCounterScaled (attr : JSString) : Option Nat :=
  match digitsToNat (intDigits attr) with
  | none => none
  | some ip =>
      if hasDecimals attr then
        match digitsToNat (fracDigits attr) with
        | none => none
        | some fp => some (ip * 10 ^ (fracDigits attr).length + fp)
      else some ip

/-- Comma-group a least-significant-first digit list in threes: after
every third digit a comma separates the next group, when one follows. -/
def commaGroupRev : JSString → JSString
  | a :: b :: c :: d :: rest => a :: b :: c :: ',' :: commaGroupRev (d :: rest)
  | l => l

/-- Comma-group a most-significant-first digit string in threes, as the
`en-US` locale renders integer parts. -/
def groupThousands (ds : JSString) : JSString :=
  (commaGroupRev ds.reverse).reverse

/-- Left-pad a digit string with zeros to `k` digits. -/
def padZeros (k : Nat) (ds : JSString) : JSString :=
  List.replicate (k - ds.length) '0' ++ ds

/-- `value.toLocaleString('en-US', { minimumFractionDigits: d,
maximumFractionDigits: d })` for the exact nonnegative value
`units / 10 ^ d`. -/
def toLocaleStringEnUS (units : Nat) (d : Nat) : JSString :=
  let ip := units / 10 ^ d
  let intStr := groupThousands (Nat.toDigits 10 ip)
  if d = 0 then intStr
  else intStr ++ '.' :: padZeros d (Nat.toDigits 10 (units % 10 ^ d))

/-- The counter element's text once the 2 s tween has reached the
target: the final `onUpdate` formats the exact target and appends the
optional suffix. -/
def counterFinalText (attr suffix : JSString) : Option JSString :=
  match parseCounterScaled attr with
  | none => none
  | some units => some (toLocaleStringEnUS units (decimalsOf attr) ++ suffix)

/-! ## `initScrollAnimations` reveal batches

Both `ScrollTrigger.batch` registrations use `once: true`; the
`.project-card` one additionally filters out elements already flagged
`dataset.animated`, and both flag what they animate. -/

/-- A reveal-marked element: its `dataset.animated` flag. -/
structure RevealElem where
  animated : Bool
deriving Repr, DecidableEq

/-- The `.project-card` batch `onEnter`: skip flagged elements, animate
and flag the rest; the number returned is how many were animated. -/
def projectCardOnEnter (batch : List RevealElem) :
    List RevealElem × Nat :=
  let toAnimate := batch.filter (fun el => !el.animated)
  if toAnimate.length = 0 then (batch, 0)
  else
    (batch.map (fun el => if el.animated then el else { el with animated := true }),
      toAnimate.length)

/-- The `[data-animate]` batch `onEnter`: animate the whole batch and
flag it. -/
def dataAnimateOnEnter (batch : List RevealElem) :
    List RevealElem × Nat :=
  (batch.map (fun el => { el with animated := true }), batch.length)

/-- A `ScrollTrigger` registered with `once: true`: it fires its
handler on the first qualifying entry only. -/
structure RevealTrigger where
  fired : Bool
  elems : List RevealElem
deriving Repr, DecidableEq

/-- One viewport entry under `once: true` semantics. -/
def onceEnter (handler : List RevealElem → List RevealElem × Nat)
    (t : RevealTrigger) : RevealTrigger × Nat :=
  if t.fired then (t, 0)
  else ({ fired := true, elems := (handler t.elems).1 },
    (handler t.elems).2)

/-- Total elements animated over `n` viewport entries. -/
def totalAnimated (handler : List RevealElem → List RevealElem × Nat) :
    Nat → RevealTrigger → Nat
  | 0, _ => 0
  | n + 1, t =>
      (onceEnter handler t).2 + totalAnimated handler n (onceEnter handler t).1

end M0NARQAnimations

end M0narq

namespace M0narq

namespace ScrambleText

theorem tick_inactive (r : Run) (rand : Nat → Nat → Nat) (s : State)
    (h : s.active = false) : tick r rand s = s := by
  simp [tick, h]

theorem run_frame_of_lt (r : Run) (rand : Nat → Nat → Nat) (n : Nat)
    (h : (n : ℚ) < r.totalFrames) :
    (run r rand n).active = true ∧ (run r rand n).frame = n := by
  induction n with
  | zero => exact ⟨rfl, rfl⟩
  | succ n ih =>
    have hn : (n : ℚ) < r.totalFrames := by
      have hle : (n : ℚ) ≤ ((n + 1 : Nat) : ℚ) := by push_cast; linarith
      linarith
    obtain ⟨ha, hf⟩ := ih hn
    have hlt : ¬ r.totalFrames ≤ (n : ℚ) + 1 := by
      push_cast at h; linarith
    simp [run, tick, ha, hf, hlt]

theorem jsIndexConcat_of_lt (s : JSString) (i : Nat) (h : i < s.length) :
    jsIndexConcat s i = [s.getD i '?'] := by
  induction s generalizing i with
  | nil => simp at h
  | cons c t ih =>
    cases i with
    | zero => rfl
    | succ j => exact ih j (by simpa using h)

theorem get?_eq_getD_of_lt (s : JSString) (i : Nat) (h : i < s.length) :
    s.get? i = some (s.getD i '?') := by
  induction s generalizing i with
  | nil => simp at h
  | cons c t ih =>
    cases i with
    | zero => rfl
    | succ j => exact ih j (by simpa using h)

theorem getD_mem_of_lt (s : JSString) (i : Nat) (h : i < s.length) :
    s.getD i '?' ∈ s := by
  induction s generalizing i with
  | nil => simp at h
  | cons c t ih =>
    cases i with
    | zero => simp [List.getD]
    | succ j =>
      have := ih j (by simpa using h)
      simp only [List.getD_cons_succ]
      exact List.mem_cons_of_mem _ this

theorem flatten_map_singleton {α β : Type} (f : β → List α) (g : β → α)
    (l : List β) (h : ∀ b ∈ l, f b = [g b]) :
    (l.map f).flatten = l.map g := by
  induction l with
  | nil => rfl
  | cons b t ih =>
    have hb := h b (List.mem_cons_self b t)
    have ht := ih (fun x hx => h x (List.mem_cons_of_mem _ hx))
    simp [hb, ht]

theorem scrambledAt_eq_map (r : Run) (frame : Nat) (rand : Nat → Nat)
    (hp : (frame : ℚ) / r.totalFrames ≤ 1) :
    scrambledAt r frame rand =
      (List.range r.maxLength).map (charAt r frame rand) := by
  have hpieces : ∀ i ∈ List.range r.maxLength,
      (if (i : ℚ) < (r.newText.length : ℚ) * ((frame : ℚ) / r.totalFrames) then
        jsIndexConcat r.newText i
      else jsIndexConcat chars (rand i % 30)) = [charAt r frame rand i] := by
    intro i _
    by_cases hc : (i : ℚ) < (r.newText.length : ℚ) * ((frame : ℚ) / r.totalFrames)
    · have hlt : i < r.newText.length := by
        have h2 : (i : ℚ) < (r.newText.length : ℚ) := by
          have hmul : (r.newText.length : ℚ) * ((frame : ℚ) / r.totalFrames)
              ≤ (r.newText.length : ℚ) * 1 :=
            mul_le_mul_of_nonneg_left hp (by positivity)
          calc (i : ℚ) < _ := hc
            _ ≤ (r.newText.length : ℚ) * 1 := hmul
            _ = (r.newText.length : ℚ) := mul_one _
        exact_mod_cast h2
      rw [if_pos hc, charAt, if_pos hc, jsIndexConcat_of_lt _ _ hlt]
    · have hlt : rand i % 30 < chars.length := by
        have h30 : rand i % 30 < 30 := Nat.mod_lt _ (by norm_num)
        have hch : chars.length = 30 := by decide
        omega
      rw [if_neg hc, charAt, if_neg hc, jsIndexConcat_of_lt _ _ hlt]
  unfold scrambledAt
  rw [flatten_map_singleton _ _ _ hpieces]
  exact List.take_of_length_le (by simp)

/-- C1: for every target string and every initial node content, once the
frame count of a v6.0 `ScrambleText.scramble` run reaches the run's total
frame budget, the node's content is exactly the target string, the
interval is cleared, and further interval firings leave the state
unchanged (no further mutation from that run). -/
theorem scramble_run_completes (r : Run) (rand : Nat → Nat → Nat) (n : Nat)
    (h1 : 1 ≤ n) (h2 : r.totalFrames ≤ (n : ℚ)) :
    (run r rand n).content = r.newText ∧ (run r rand n).active = false ∧
      tick r rand (run r rand n) = run r rand n := by
  induction n with
  | zero => omega
  | succ n ih =>
    by_cases hlt : (n : ℚ) < r.totalFrames
    · obtain ⟨ha, hf⟩ := run_frame_of_lt r rand n hlt
      have hc : r.totalFrames ≤ ((run r rand n).frame : ℚ) + 1 := by
        rw [hf]; push_cast at h2 ⊢; linarith
      have hstate : run r rand (n + 1) =
          { frame := (run r rand n).frame + 1, content := r.newText,
            active := false } := by
        simp [run, tick, ha, hc]
      refine ⟨by rw [hstate], by rw [hstate], ?_⟩
      rw [hstate]
      exact tick_inactive _ _ _ rfl
    · push_neg at hlt
      rcases Nat.eq_zero_or_pos n with h0 | hpos
      · subst h0
        have hc : r.totalFrames ≤ ((run r rand 0).frame : ℚ) + 1 := by
          have : ((run r rand 0).frame : ℚ) = 0 := by simp [run, start]
          rw [this]; push_cast at hlt; linarith
        have hstate : run r rand 1 =
            { frame := (run r rand 0).frame + 1, content := r.newText,
              active := false } := by
          simp [run, start, tick] at hc ⊢
          simp [hc]
        refine ⟨by rw [hstate], by rw [hstate], ?_⟩
        rw [hstate]
        exact tick_inactive _ _ _ rfl
      · obtain ⟨hcon, hact, hfix⟩ := ih hpos hlt
        have hstep : run r rand (n + 1) = run r rand n := hfix
        exact ⟨by rw [hstep]; exact hcon, by rw [hstep]; exact hact,
          by rw [hstep]; exact hfix⟩

/-- C1 witness: the completion theorem applied to a concrete 0.8 s run
(total frame budget 38.4, completing at tick 39). -/
theorem scramble_run_completes_witness :
    (1 ≤ 39 ∧ demoRun.totalFrames ≤ ((39 : Nat) : ℚ)) ∧
      (run demoRun demoRand 39).content = demoRun.newText := by
  have h : demoRun.totalFrames ≤ ((39 : Nat) : ℚ) := by
    norm_num [demoRun, Run.ofDuration]
  exact ⟨⟨by norm_num, h⟩,
    (scramble_run_completes demoRun demoRand 39 (by norm_num) h).1⟩

/-- C2 (amended): on a v6.0 scramble tick with progress at most 1,
character `i` of the written string is the target character exactly when
`i < newLength * progress` (not `i / max(oldLength, newLength) <
progress` as the spec words it), and otherwise is a character of the
fixed 30-symbol alphabet picked by the random draw. -/
theorem scramble_tick_char_rule (r : Run) (frame : Nat) (rand : Nat → Nat)
    (hp : (frame : ℚ) / r.totalFrames ≤ 1) (i : Nat) (hi : i < r.maxLength) :
    ((i : ℚ) < (r.newText.length : ℚ) * ((frame : ℚ) / r.totalFrames) →
        (scrambledAt r frame rand).get? i = r.newText.get? i) ∧
    (¬ (i : ℚ) < (r.newText.length : ℚ) * ((frame : ℚ) / r.totalFrames) →
        ∃ c, (scrambledAt r frame rand).get? i = some c ∧ c ∈ chars) := by
  rw [scrambledAt_eq_map r frame rand hp]
  have hget : ((List.range r.maxLength).map (charAt r frame rand)).get? i
      = some (charAt r frame rand i) := by
    rw [List.get?_map, List.get?_range hi, Option.map_some']
  constructor
  · intro hc
    have hlt : i < r.newText.length := by
      have h2 : (i : ℚ) < (r.newText.length : ℚ) := by
        have hmul : (r.newText.length : ℚ) * ((frame : ℚ) / r.totalFrames)
            ≤ (r.newText.length : ℚ) * 1 :=
          mul_le_mul_of_nonneg_left hp (by positivity)
        calc (i : ℚ) < _ := hc
          _ ≤ (r.newText.length : ℚ) * 1 := hmul
          _ = (r.newText.length : ℚ) := mul_one _
      exact_mod_cast h2
    rw [hget, charAt, if_pos hc, get?_eq_getD_of_lt _ _ hlt]
  · intro hc
    have hlt : rand i % 30 < chars.length := by
      have h30 : rand i % 30 < 30 := Nat.mod_lt _ (by norm_num)
      have hch : chars.length = 30 := by decide
      omega
    refine ⟨chars.getD (rand i % 30) '?', ?_, ?_⟩
    · rw [hget, charAt, if_neg hc]
    · exact getD_mem_of_lt _ _ hlt

/-- C2 witness: the amended character rule applied at the concrete tick
of the refutation run (frame 14 of 28.8, position 1). -/
theorem scramble_tick_char_rule_witness :
    (((14 : Nat) : ℚ) / cexRun.totalFrames ≤ 1 ∧ 1 < cexRun.maxLength) ∧
    ((((1 : Nat) : ℚ) < (cexRun.newText.length : ℚ) *
          (((14 : Nat) : ℚ) / cexRun.totalFrames) →
        (scrambledAt cexRun 14 cexRand).get? 1 = cexRun.newText.get? 1) ∧
     (¬ ((1 : Nat) : ℚ) < (cexRun.newText.length : ℚ) *
          (((14 : Nat) : ℚ) / cexRun.totalFrames) →
        ∃ c, (scrambledAt cexRun 14 cexRand).get? 1 = some c ∧ c ∈ chars)) := by
  have hp : ((14 : Nat) : ℚ) / cexRun.totalFrames ≤ 1 := by
    norm_num [cexRun, Run.ofDuration]
  exact ⟨⟨hp, by decide⟩, scramble_tick_char_rule cexRun 14 cexRand hp 1 (by decide)⟩

/-- C2 counterexample: at frame 14 of the 0.6 s v6.0 run with old text
`"ABCDEFGHIJ"` and target `"AB"`, fractional progress 35/72 exceeds
1 / max(oldLength, newLength) = 1/10, yet position 1 shows the random
symbol `'!'` and not the target character `'B'`: the spec's threshold
`i / max(oldLength, newLength)` is not the one the v6.0 code uses. -/
theorem scramble_tick_not_maxLength_rule :
    ((1 : ℚ) / (cexRun.maxLength : ℚ) < ((14 : Nat) : ℚ) / cexRun.totalFrames) ∧
    cexRun.newText.get? 1 = some 'B' ∧
    (scrambledAt cexRun 14 cexRand).get? 1 = some '!' ∧ ('!' : Char) ≠ 'B' := by
  have hlen : cexRun.newText.length = 2 := by decide
  have htf : cexRun.totalFrames = 144 / 5 := by
    norm_num [cexRun, Run.ofDuration]
  have hmax : cexRun.maxLength = 10 := by decide
  have hp : ((14 : Nat) : ℚ) / cexRun.totalFrames ≤ 1 := by
    rw [htf]; norm_num
  have hcond : ¬ (((1 : Nat) : ℚ) < (cexRun.newText.length : ℚ) *
      (((14 : Nat) : ℚ) / cexRun.totalFrames)) := by
    rw [hlen, htf]; norm_num
  refine ⟨by rw [hmax, htf]; norm_num, by decide, ?_, by decide⟩
  rw [scrambledAt_eq_map cexRun 14 cexRand hp]
  rw [List.get?_map, List.get?_range (by rw [hmax]; norm_num), Option.map_some']
  rw [charAt, if_neg hcond]
  decide

end ScrambleText

namespace DynamicIslandNav

theorem live_erased (s : UTextState) (h : UTextInv s) :
    (match s.scrambleInterval with
      | some id => s.liveIntervals.erase id
      | none => s.liveIntervals) = [] := by
  obtain ⟨hlen, hids⟩ := h
  cases hsi : s.scrambleInterval with
  | none =>
    cases hl : s.liveIntervals with
    | nil => rfl
    | cons x xs =>
      have hx := hids x (by rw [hl]; exact List.mem_cons_self x xs)
      rw [hsi] at hx
      exact absurd hx (by simp)
  | some id =>
    cases hl : s.liveIntervals with
    | nil => rfl
    | cons x xs =>
      have hx := hids x (by rw [hl]; exact List.mem_cons_self x xs)
      rw [hsi] at hx
      have hxid : id = x := by injection hx
      cases xs with
      | nil => subst hxid; simp
      | cons y ys => rw [hl] at hlen; simp at hlen

theorem uTextInv_step (s : UTextState) (e : UTextEvent) (h : UTextInv s) :
    UTextInv (stepUText s e) := by
  obtain ⟨hlen, hids⟩ := h
  cases e with
  | update t =>
    show UTextInv (updateText t s)
    unfold updateText
    by_cases ha : s.isAnimating
    · simpa [ha] using ⟨hlen, hids⟩
    · rw [if_neg (by simp [ha])]
      have hlive := live_erased s ⟨hlen, hids⟩
      constructor
      · simp [hlive]
      · intro id hid
        simp [hlive] at hid
        simp [hid]
  | finish =>
    show UTextInv (scrambleFinish s)
    unfold scrambleFinish
    split
    · split
      · exact ⟨le_trans (List.length_erase_le _ _) hlen,
          fun x hx => hids x (List.mem_of_mem_erase hx)⟩
      · exact ⟨hlen, hids⟩
    · exact ⟨hlen, hids⟩
  | animDone =>
    exact ⟨hlen, hids⟩

theorem uTextInv_run (es : List UTextEvent) (s : UTextState)
    (h : UTextInv s) : UTextInv (runUText es s) := by
  induction es generalizing s with
  | nil => exact h
  | cons e t ih =>
    rw [runUText, List.foldl_cons]
    exact ih (stepUText s e) (uTextInv_step s e h)

/-- C3 (amended): along the `updateText` path at most one scramble
interval is live per text node at any time — `updateText` clears the
stored interval handle before installing a new one, and completion
clears the live one — but a call arriving while a prior run's
`isAnimating` window is open is dropped entirely (no cancellation of the
prior run, no queuing): the prior target, not the newest, keeps the
node. -/
theorem updateText_single_interval (c t : JSString) (es : List UTextEvent)
    (s : UTextState) :
    UTextInv (runUText es (mkUText c)) ∧
    updateText t { s with isAnimating := true } =
      { s with isAnimating := true } := by
  constructor
  · exact uTextInv_run es (mkUText c) ⟨by simp [mkUText], by simp [mkUText]⟩
  · simp [updateText]

/-- C3 counterexample: `updateText "A"` immediately followed by
`updateText "B"` while the first run is in flight, then run completion
and the 600 ms timeout: the node reads `"A"`, not the newest target
`"B"` — the newer call was dropped, not queued and not honoured by
cancelling the prior run. -/
theorem updateText_first_write_wins :
    (runUText [.update ['A'], .update ['B'], .finish, .animDone]
        (mkUText ['H'])).content = ['A'] ∧
    (['A'] : JSString) ≠ ['B'] := by
  exact ⟨by decide, by decide⟩

theorem navigate_state_id (s : NavState) (i : ℤ) :
    (navigateToSection s i).1 = s := by
  simp only [navigateToSection]
  split
  · rfl
  · split <;> rfl

theorem observerFire_currentIndex (s : NavState) (k : Nat) :
    (observerFire s k).currentIndex = k := by
  simp only [observerFire, updateCurrentSection, updateTextFlag]
  by_cases hk : k ≠ s.currentIndex
  · rw [if_pos hk]
    split
    · split <;> rfl
    · rfl
  · push_neg at hk
    simp [hk]

theorem lastObserved_foldl (es : List NavEvent) (a : Option Nat) :
    es.foldl (fun acc e => match e with | .observe k => some k | _ => acc) a =
      match es.foldl
        (fun acc e => match e with | .observe k => some k | _ => acc) none with
      | some m => some m
      | none => a := by
  induction es generalizing a with
  | nil => rfl
  | cons e t ih =>
    cases e with
    | navigate i =>
      simp only [List.foldl_cons]
      exact ih a
    | animDone =>
      simp only [List.foldl_cons]
      exact ih a
    | observe k =>
      simp only [List.foldl_cons]
      rw [ih (some k)]
      cases hm : t.foldl
          (fun acc e => match e with | .observe k => some k | _ => acc) none with
      | none => rfl
      | some m => rfl

theorem runNav_currentIndex (es : List NavEvent) (s : NavState) :
    (runNav es s).currentIndex = (lastObserved es).getD s.currentIndex := by
  induction es generalizing s with
  | nil => rfl
  | cons e t ih =>
    rw [runNav, List.foldl_cons]
    have htail := ih (stepNav s e)
    rw [runNav] at htail
    cases e with
    | navigate i =>
      rw [htail]
      have hidx : (stepNav s (.navigate i)).currentIndex = s.currentIndex := by
        show (navigateToSection s i).1.currentIndex = s.currentIndex
        rw [navigate_state_id]
      rw [hidx]
      rfl
    | animDone =>
      rw [htail]
      rfl
    | observe k =>
      rw [htail]
      have hidx : (stepNav s (.observe k)).currentIndex = k :=
        observerFire_currentIndex s k
      rw [hidx]
      show (lastObserved t).getD k =
        (List.foldl (fun acc e => match e with | .observe k => some k | _ => acc)
          (some k) t).getD s.currentIndex
      rw [lastObserved_foldl t (some k)]
      cases hm : lastObserved t with
      | none => rw [lastObserved] at hm; rw [hm]; rfl
      | some m => rw [lastObserved] at hm; rw [hm]; rfl

/-- C4: a directional navigation request never mutates the navigator
state — `navigateToSection` returns its input state whatever the
request — and across any sequence of navigation requests, observer
reports and guard timeouts, the settled current index equals the most
recently confirmed observer report (the initial index when none was
confirmed). -/
theorem nav_index_observer_owned (s : NavState) (es : List NavEvent) :
    (∀ i : ℤ, (navigateToSection s i).1 = s) ∧
    (runNav es s).currentIndex = (lastObserved es).getD s.currentIndex :=
  ⟨fun i => navigate_state_id s i, runNav_currentIndex es s⟩

/-- C5: a navigation request's scroll target is clamped into
`[0, sectionCount - 1]`; a "previous" request while resting on the first
section is a no-op (clamped, not wrapped), and any request whose clamped
index equals the current index issues no scroll. -/
theorem navigateToSection_clamps (s : NavState) (i : ℤ)
    (h1 : 1 ≤ s.sectionCount) :
    (∀ t, (navigateToSection s i).2 = some t →
      0 ≤ t ∧ t ≤ (s.sectionCount : ℤ) - 1) ∧
    (s.currentIndex = 0 → i ≤ 0 → navigateToSection s i = (s, none)) ∧
    (max 0 (min ((s.sectionCount : ℤ) - 1) i) = (s.currentIndex : ℤ) →
      (navigateToSection s i).2 = none) := by
  unfold navigateToSection
  by_cases ha : s.isAnimating
  · refine ⟨?_, ?_, ?_⟩ <;> simp [ha]
  · have hcnt : (1 : ℤ) ≤ (s.sectionCount : ℤ) := by exact_mod_cast h1
    refine ⟨?_, ?_, ?_⟩
    · intro t ht
      simp only [ha, Bool.false_eq_true, if_false] at ht
      by_cases hc : max 0 (min ((s.sectionCount : ℤ) - 1) i) = (s.currentIndex : ℤ)
      · rw [if_pos hc] at ht
        exact absurd ht (by simp)
      · rw [if_neg hc] at ht
        have : max 0 (min ((s.sectionCount : ℤ) - 1) i) = t := by
          simpa using ht
        omega
    · intro h0 hneg
      have hidx : (s.currentIndex : ℤ) = 0 := by exact_mod_cast h0
      have hcl : max 0 (min ((s.sectionCount : ℤ) - 1) i) =
          (s.currentIndex : ℤ) := by omega
      simp [ha, hcl]
    · intro hcl
      simp [ha, hcl]

/-- C5 witness: the clamping theorem at a three-section navigator
resting on section 0 receiving a "previous" request. -/
theorem navigateToSection_clamps_witness :
    1 ≤ navDemo.sectionCount ∧
    ((∀ t, (navigateToSection navDemo (-1)).2 = some t →
        0 ≤ t ∧ t ≤ (navDemo.sectionCount : ℤ) - 1) ∧
     (navDemo.currentIndex = 0 → (-1 : ℤ) ≤ 0 →
        navigateToSection navDemo (-1) = (navDemo, none)) ∧
     (max 0 (min ((navDemo.sectionCount : ℤ) - 1) (-1)) =
          (navDemo.currentIndex : ℤ) →
        (navigateToSection navDemo (-1)).2 = none)) :=
  ⟨by decide, navigateToSection_clamps navDemo (-1) (by decide)⟩

/-- C6 (amended): the idle glitch executes exactly when the pending
timer fires with both flags false — so never while `expanded` or
`menuOpen` is true; expanding cancels the pending timer, and collapsing
re-arms it exactly when the menu is closed, with the randomized delay in
[3000 ms, 5000 ms); but opening the menu does not cancel the pending
timer (the callback's fire-time flag check merely suppresses the
glitch), and closing the menu does not by itself re-arm the
scheduler. -/
theorem idle_glitch_guard (s : IdleState) (rnd : ℚ)
    (h0 : 0 ≤ rnd) (h1 : rnd < 1) :
    (morphFire rnd s).2 =
      (s.morphPending && (!s.isExpanded && !s.isMenuOpen)) ∧
    (toggleExpanded true rnd s).morphPending = false ∧
    (toggleExpanded false rnd s).morphPending = !s.isMenuOpen ∧
    (s.isMenuOpen = false →
      3000 ≤ (toggleExpanded false rnd s).morphDelayMs ∧
      (toggleExpanded false rnd s).morphDelayMs < 5000) ∧
    (toggleMenu (some true) s).morphPending = s.morphPending ∧
    (toggleMenu (some false) s).morphPending = s.morphPending := by
  refine ⟨?_, ?_, ?_, ?_, rfl, rfl⟩
  · unfold morphFire startIdleAnimation
    by_cases hp : s.morphPending <;> by_cases he : s.isExpanded <;>
      by_cases hm : s.isMenuOpen <;> simp [hp, he, hm]
  · unfold toggleExpanded resetIdleTimer
    simp
  · unfold toggleExpanded startIdleAnimation
    by_cases hm : s.isMenuOpen <;> simp [hm]
  · intro hm
    unfold toggleExpanded startIdleAnimation
    have hmul0 : (0 : ℚ) ≤ rnd * 2000 :=
      mul_nonneg h0 (by norm_num)
    have hmul1 : rnd * 2000 < 1 * 2000 :=
      mul_lt_mul_of_pos_right h1 (by norm_num)
    simp [hm]
    constructor <;> linarith

/-- C6 witness: the amended idle-glitch theorem at a collapsed,
menu-closed island with the timer armed and the draw 1/2. -/
theorem idle_glitch_guard_witness :
    ((0 : ℚ) ≤ 1 / 2 ∧ (1 / 2 : ℚ) < 1) ∧
    ((morphFire (1 / 2) idleDemo).2 =
        (idleDemo.morphPending &&
          (!idleDemo.isExpanded && !idleDemo.isMenuOpen)) ∧
     (toggleExpanded true (1 / 2) idleDemo).morphPending = false ∧
     (toggleExpanded false (1 / 2) idleDemo).morphPending =
        !idleDemo.isMenuOpen ∧
     (idleDemo.isMenuOpen = false →
        3000 ≤ (toggleExpanded false (1 / 2) idleDemo).morphDelayMs ∧
        (toggleExpanded false (1 / 2) idleDemo).morphDelayMs < 5000) ∧
     (toggleMenu (some true) idleDemo).morphPending =
        idleDemo.morphPending ∧
     (toggleMenu (some false) idleDemo).morphPending =
        idleDemo.morphPending) :=
  ⟨⟨by norm_num, by norm_num⟩,
    idle_glitch_guard idleDemo (1 / 2) (by norm_num) (by norm_num)⟩

/-- C6 counterexample: with the idle timer pending, opening the menu
leaves it pending (`toggleMenu` clears no timer), and with the timer
dead, closing the menu does not re-arm it — against the claim that
every change setting `menuOpen` cancels the pending timer and that
toggling it off re-arms the scheduler. -/
theorem toggleMenu_leaves_idle_timer :
    (toggleMenu (some true)
      { isExpanded := false, isMenuOpen := false, morphPending := true,
        morphDelayMs := 4000, idlePending := false }).morphPending = true ∧
    (toggleMenu (some false)
      { isExpanded := false, isMenuOpen := true, morphPending := false,
        morphDelayMs := 4000, idlePending := false }).morphPending = false :=
  ⟨rfl, rfl⟩

/-- C10: a navigation request arriving while `isAnimating` is true is a
complete no-op in both the v6.0 `navigateToSection` and the v4.0 `go`:
the state is returned unchanged, no scroll request is issued, and
nothing is queued for later. -/
theorem navigation_dropped_while_animating (s : NavState) (i : ℤ) :
    navigateToSection { s with isAnimating := true } i =
      ({ s with isAnimating := true }, none) ∧
    go { s with isAnimating := true } i =
      ({ s with isAnimating := true }, none) := by
  constructor <;> simp [navigateToSection, go]

end DynamicIslandNav

namespace M0NARQAnimations

/-- C7 counterexample: with the animation library absent at boot, the
v5.0 file's initialization does not complete without an uncaught
exception: `validateDependencies` throws and no handler catches it. -/
theorem initV5_throws_on_missing_deps :
    (initV5 { gsap := false, scrollTrigger := true, lenis := true }
      docBoot).2 = true := rfl

/-- C7 (amended): for every combination of missing third-party
libraries, the v6.0 initializer completes without an uncaught exception
(its outer catch forces the fallback) and the document ends in the
loaded/visible state; in the v5.0 draft the loader removal has already
marked the document loaded and forced it visible before the dependency
check, but with a library missing its `init` aborts with an uncaught
rejection rather than completing. -/
theorem init_fallback_visibility (d : Deps) :
    ((initV6 d docBoot).2 = false ∧
      (initV6 d docBoot).1.bodyLoaded = true ∧
      (initV6 d docBoot).1.htmlLoaded = true) ∧
    ((initV5 d docBoot).1.htmlLoaded = true ∧
      (initV5 d docBoot).1.forcedVisible = true) := by
  rcases d with ⟨g, st, l⟩
  cases g <;> cases st <;> cases l <;> exact ⟨⟨rfl, rfl, rfl⟩, rfl, rfl⟩

/-- C8: a counter whose numeric target attribute is the string
`"1234.5"` renders exactly `"1,234.5"` once the 2-second tween reaches
its target — en-US thousands separator and the attribute's one decimal
digit preserved — and an optional suffix is appended unchanged. -/
theorem counter_formats_1234_5 :
    counterFinalText "1234.5".toList [] = some "1,234.5".toList ∧
    counterFinalText "1234.5".toList "%".toList = some "1,234.5%".toList ∧
    decimalsOf "1234.5".toList = 1 := by
  refine ⟨?_, ?_, ?_⟩ <;> decide

theorem totalAnimated_fired
    (handler : List RevealElem → List RevealElem × Nat) (n : Nat)
    (es : List RevealElem) :
    totalAnimated handler n { fired := true, elems := es } = 0 := by
  induction n with
  | zero => rfl
  | succ n ih => simpa [totalAnimated, onceEnter] using ih

theorem projectCard_count (batch : List RevealElem) :
    (projectCardOnEnter batch).2 =
      (batch.filter (fun el => !el.animated)).length := by
  simp only [projectCardOnEnter]
  split
  · next h => exact h.symm
  · rfl

/-- C9: reveal batches animate each element at most once: a trigger that
already fired (`once: true`) animates nothing on any later viewport
entry; the `.project-card` handler animates exactly the elements not yet
flagged `animated`; and over any number of viewport entries the totals
are the initially-unflagged count (project cards) and the batch size
(`[data-animate]`), reached on the first entry and never increased
again. -/
theorem reveal_runs_at_most_once (elems : List RevealElem) (n : Nat)
    (handler : List RevealElem → List RevealElem × Nat) :
    (∀ es, onceEnter handler { fired := true, elems := es } =
        ({ fired := true, elems := es }, 0)) ∧
    (projectCardOnEnter elems).2 =
      (elems.filter (fun el => !el.animated)).length ∧
    totalAnimated projectCardOnEnter n { fired := false, elems := elems } =
      (if n = 0 then 0
        else (elems.filter (fun el => !el.animated)).length) ∧
    totalAnimated dataAnimateOnEnter n { fired := false, elems := elems } =
      (if n = 0 then 0 else elems.length) := by
  refine ⟨fun es => rfl, projectCard_count elems, ?_, ?_⟩
  · cases n with
    | zero => rfl
    | succ n =>
      simp [totalAnimated, onceEnter, totalAnimated_fired, projectCard_count]
  · cases n with
    | zero => rfl
    | succ n =>
      simp [totalAnimated, onceEnter, totalAnimated_fired, dataAnimateOnEnter]

end M0NARQAnimations

end M0narq
